import Mathlib

/-!
Verification of the WeatherWrangler forecast-analysis engine
(`WeatherAnalyzer` in the repository source, plus the constants module).

The JavaScript code is shallowly embedded: JS numbers are modelled as `ℚ`
(with `-Infinity`, which occurs only as the seed of running maxima, modelled
via `WithBot`), `Math.round` as `⌊x + 1/2⌋` (round half toward +∞, as in JS),
epoch instants as integer milliseconds, and the browser environment is taken
to sit at UTC, so `Date#getHours` of an instant is its UTC hour — the code
adds the location offset to the raw instant before formatting, exactly as the
source does.  Fallible code (`evaluateConditions`, which can throw) returns
`Except`.
-/

attribute [local semireducible] Rat.ofScientific Rat.mul Rat.inv Rat.add Rat.sub

namespace WeatherWrangler

/-- JS `Math.round`: nearest integer, ties toward +∞. -/
def jround (q : ℚ) : ℤ := ⌊q + 1/2⌋

/-- Hour-of-day (0–23) of an epoch-milliseconds instant (environment at UTC). -/
def hoursOfMs (ms : ℤ) : ℤ := (ms.ediv 3600000).emod 24

/-- Minute-of-hour (0–59) of an epoch-milliseconds instant. -/
def minutesOfMs (ms : ℤ) : ℤ := (ms.ediv 60000).emod 60

/-- 12-hour clock hour shown for a 0–23 hour (0 and 12 display as 12). -/
def hour12 (h : ℤ) : ℤ := if h.emod 12 = 0 then 12 else h.emod 12

/-- AM/PM marker for a 0–23 hour. -/
def ampm (h : ℤ) : String := if h < 12 then "AM" else "PM"

/-- Two-digit minute field, as rendered by a 2-digit minute option. -/
def twoDigit (m : ℤ) : String := if m < 10 then "0" ++ toString m else toString m

/-- JS locale time string, en-US, numeric hour, 2-digit minute, 12-hour clock,
e.g. "3:00 PM". -/
def timeStrFull (ms : ℤ) : String :=
  toString (hour12 (hoursOfMs ms)) ++ ":" ++ twoDigit (minutesOfMs ms) ++ " " ++ ampm (hoursOfMs ms)

/-- JS locale time string, en-US, numeric hour only, 12-hour clock, e.g. "6 AM". -/
def hourStr (ms : ℤ) : String :=
  toString (hour12 (hoursOfMs ms)) ++ " " ++ ampm (hoursOfMs ms)

/-- JS `String#toLowerCase` (ASCII, which is all the code feeds it). -/
def lowerStr (s : String) : String := String.mk (s.data.map Char.toLower)

/-- `forecast.main` — carries the temperature (°F). -/
structure MainInfo where
  temp : ℚ
  deriving DecidableEq

/-- `forecast.wind` — carries the wind speed (m/s). -/
structure WindInfo where
  speed : ℚ
  deriving DecidableEq

/-- One entry of `forecast.weather` — carries the condition code. -/
structure WeatherInfo where
  id : ℤ
  deriving DecidableEq

/-- One forecast point of the feed.  `pop` is the optional precipitation
probability (0–1); `tzOffsetMs` models the `_timezoneOffsetMs` enrichment the
day-window selector attaches (absent, i.e. `none`, on raw feed points). -/
structure Forecast where
  dt : ℤ
  main : MainInfo
  wind : WindInfo
  weather : List WeatherInfo
  pop : Option ℚ
  tzOffsetMs : Option ℤ := none
  deriving DecidableEq

/-- `weatherData.city`: display name and optional UTC offset in seconds. -/
structure City where
  name : String
  timezone : Option ℤ
  deriving DecidableEq

/-- The forecast feed handed to `evaluateConditions`. -/
structure WeatherData where
  city : Option City
  cacheTimestamp : Option ℤ
  list : List Forecast
  deriving DecidableEq

/-- The four caller-supplied thresholds. -/
structure Settings where
  tempThresholdTopOff : ℚ
  tempThresholdDoorsOff : ℚ
  rainChanceThreshold : ℚ
  windSpeedThreshold : ℚ
  deriving DecidableEq

/-- `WEATHER_CONFIG.RAIN_WEATHER_IDS` (constants module). -/
def THUNDERSTORM_MIN : ℤ := 200
def THUNDERSTORM_MAX : ℤ := 232
def DRIZZLE_MIN : ℤ := 300
def DRIZZLE_MAX : ℤ := 321
def RAIN_MIN : ℤ := 500
def RAIN_MAX : ℤ := 531

/-- `WeatherAnalyzer.calculateRainChance`: `pop × 100` when a numeric
precipitation probability is present, otherwise 50/0 from the condition code
of the first `weather` entry (0 when weather info is missing). -/
def calculateRainChance (forecast : Forecast) : ℚ :=
  match forecast.pop with
  | some p => p * 100
  | none =>
    match forecast.weather with
    | [] => 0
    | w :: _ =>
      if (THUNDERSTORM_MIN ≤ w.id ∧ w.id ≤ THUNDERSTORM_MAX)
          ∨ (DRIZZLE_MIN ≤ w.id ∧ w.id ≤ DRIZZLE_MAX)
          ∨ (RAIN_MIN ≤ w.id ∧ w.id ≤ RAIN_MAX) then 50
      else 0

/-- `WeatherAnalyzer.getLocationTimezoneOffset` in milliseconds; the browser
fallback is 0 because the environment is modelled at UTC. -/
def getLocationTimezoneOffset (weatherData : WeatherData) : ℤ :=
  match weatherData.city with
  | some c =>
    match c.timezone with
    | some t => t * 1000
    | none => 0
  | none => 0

/-- Local midnight (`new Date(y, m, d)` of `now + offset`) in epoch ms:
with the environment at UTC this is the floor of the shifted instant to a
multiple of 24h. -/
def todayStartMs (nowMs : ℤ) (weatherData : WeatherData) : ℤ :=
  ((nowMs + getLocationTimezoneOffset weatherData).ediv 86400000) * 86400000

/-- The filter of `getTodayForecasts`: the shifted instant of the point lies in
`[todayStart, todayStart + 24h)`. -/
def isToday (todayStart off : ℤ) (forecast : Forecast) : Bool :=
  let fl := forecast.dt * 1000 + off
  decide (todayStart ≤ fl) && decide (fl < todayStart + 86400000)

/-- The spread-with-timezone-offset enrichment applied to each selected point. -/
def enrich (off : ℤ) (forecast : Forecast) : Forecast :=
  { forecast with tzOffsetMs := some off }

/-- `WeatherAnalyzer.getTodayForecasts`: the points of today by location timezone,
falling back to the first 8 feed points when none match; every returned point
is enriched with the resolved offset.  Total — the fallback never throws. -/
def getTodayForecasts (nowMs : ℤ) (weatherData : WeatherData) : List Forecast :=
  let off := getLocationTimezoneOffset weatherData
  let todayStart := todayStartMs nowMs weatherData
  let todayForecasts := weatherData.list.filter (isToday todayStart off)
  let chosen := if todayForecasts.length = 0 then weatherData.list.take 8 else todayForecasts
  chosen.map (enrich off)

/-- `forecasts[0]._timezoneOffsetMs || 0` (and 0 for an empty list). -/
def tzOfList (forecasts : List Forecast) : ℤ :=
  match forecasts with
  | [] => 0
  | f :: _ =>
    match f.tzOffsetMs with
    | some v => v
    | none => 0

/-- One time/chance entry of the `forecasts` array of a rain period. -/
structure RainSample where
  time : String
  chance : ℚ
  deriving DecidableEq

/-- One contiguous rain period produced by `analyzeRainTiming`. -/
structure RainPeriod where
  startTime : String
  startHour : ℤ
  endTime : String
  endHour : ℤ
  maxChance : ℚ
  forecasts : List RainSample
  deriving DecidableEq

/-- The periods/hasRain/summary result of `analyzeRainTiming`. -/
structure RainTiming where
  periods : List RainPeriod
  hasRain : Bool
  summary : String
  deriving DecidableEq

/-- `RAIN_THRESHOLD` — 10%+ counts as meaningful rain chance. -/
def RAIN_THRESHOLD : ℚ := 10

/-- Whether a point meets the 10% rain-chance threshold. -/
def isRainSignificant (forecast : Forecast) : Bool :=
  decide (RAIN_THRESHOLD ≤ calculateRainChance forecast)

/-- The time/chance sample recorded for a point. -/
def sampleOf (tz : ℤ) (forecast : Forecast) : RainSample :=
  { time := timeStrFull (forecast.dt * 1000 + tz), chance := calculateRainChance forecast }

/-- Start of a new rain period at a qualifying point. -/
def newPeriod (tz : ℤ) (forecast : Forecast) : RainPeriod :=
  let lms := forecast.dt * 1000 + tz
  { startTime := timeStrFull lms
    startHour := hoursOfMs lms
    endTime := timeStrFull lms
    endHour := hoursOfMs lms
    maxChance := calculateRainChance forecast
    forecasts := [sampleOf tz forecast] }

/-- Continuation of the open rain period at a qualifying point. -/
def extendPeriod (tz : ℤ) (p : RainPeriod) (forecast : Forecast) : RainPeriod :=
  let lms := forecast.dt * 1000 + tz
  { p with
    endTime := timeStrFull lms
    endHour := hoursOfMs lms
    maxChance := max p.maxChance (calculateRainChance forecast)
    forecasts := p.forecasts ++ [sampleOf tz forecast] }

/-- The accumulation loop of `analyzeRainTiming`: state is the open period (if
any) and the closed periods so far, in order. -/
def rainPeriodsAux (tz : ℤ) : List Forecast → Option RainPeriod → List RainPeriod → List RainPeriod
  | [], none, acc => acc
  | [], some p, acc => acc ++ [p]
  | f :: rest, cur, acc =>
    if isRainSignificant f then
      match cur with
      | none => rainPeriodsAux tz rest (some (newPeriod tz f)) acc
      | some p => rainPeriodsAux tz rest (some (extendPeriod tz p f)) acc
    else
      match cur with
      | none => rainPeriodsAux tz rest none acc
      | some p => rainPeriodsAux tz rest none (acc ++ [p])

/-- Per-period fragment of the multi-period summary. -/
def periodFragment (p : RainPeriod) : String :=
  if p.startTime = p.endTime then
    p.startTime ++ " (" ++ toString (jround p.maxChance) ++ "%)"
  else
    p.startTime ++ "-" ++ p.endTime ++ " (" ++ toString (jround p.maxChance) ++ "%)"

/-- `WeatherAnalyzer.generateRainSummary`. -/
def generateRainSummary (rainPeriods : List RainPeriod) : String :=
  match rainPeriods with
  | [] => "No significant rain expected today"
  | [p] =>
    if p.startTime = p.endTime then
      "Rain expected around " ++ p.startTime ++ " (" ++ toString (jround p.maxChance) ++ "% chance)"
    else
      "Rain expected from " ++ p.startTime ++ " to " ++ p.endTime
        ++ " (up to " ++ toString (jround p.maxChance) ++ "% chance)"
  | ps => "Rain expected: " ++ String.intercalate ", " (ps.map periodFragment)

/-- `WeatherAnalyzer.analyzeRainTiming`. -/
def analyzeRainTiming (forecasts : List Forecast) : RainTiming :=
  let tz := tzOfList forecasts
  let rainPeriods := rainPeriodsAux tz forecasts none []
  { periods := rainPeriods
    hasRain := decide (0 < rainPeriods.length)
    summary := generateRainSummary rainPeriods }

/-- Per-segment data of `analyzeTimeBasedConditions` (Morning/Afternoon/Evening). -/
structure SegmentAnalysis where
  name : String
  avgTemp : ℤ
  maxRainChance : ℤ
  maxWind : ℤ
  startTime : String
  endTime : String
  forecasts : List Forecast
  deriving DecidableEq

/-- The morning/afternoon/evening analysis record (`null` segments are `none`). -/
structure TimeBasedAnalysis where
  morning : Option SegmentAnalysis
  afternoon : Option SegmentAnalysis
  evening : Option SegmentAnalysis
  deriving DecidableEq

/-- One time-period bucket of `analyzeTimeBasedConditions`: the points whose
local hour lies in `[lo, hi)`, averaged/maxed as in the source. -/
def segmentOf (tz : ℤ) (nm : String) (lo hi : ℤ) (forecasts : List Forecast) : Option SegmentAnalysis :=
  let inBucket := fun (f : Forecast) =>
    decide (lo ≤ hoursOfMs (f.dt * 1000 + tz)) && decide (hoursOfMs (f.dt * 1000 + tz) < hi)
  match h : forecasts.filter inBucket with
  | [] => none
  | f0 :: rest =>
    let fs := f0 :: rest
    let totalTemp : ℚ := fs.foldl (fun a f => a + f.main.temp) 0
    let maxRainChance : ℚ := fs.foldl (fun a f => max a (calculateRainChance f)) 0
    let maxWind : ℚ := fs.foldl (fun a f => max a (f.wind.speed * 2.237)) 0
    some
      { name := nm
        avgTemp := jround (totalTemp / (fs.length : ℚ))
        maxRainChance := jround maxRainChance
        maxWind := jround maxWind
        startTime := hourStr (f0.dt * 1000 + tz)
        endTime := hourStr ((fs.getLast (by simp)).dt * 1000 + tz)
        forecasts := fs }

/-- `WeatherAnalyzer.analyzeTimeBasedConditions`: buckets are disjoint hour
ranges, so the first-match loop of the source equals one filter per bucket. -/
def analyzeTimeBasedConditions (forecasts : List Forecast) : TimeBasedAnalysis :=
  let tz := tzOfList forecasts
  { morning := segmentOf tz "Morning" 6 12 forecasts
    afternoon := segmentOf tz "Afternoon" 12 18 forecasts
    evening := segmentOf tz "Evening" 18 24 forecasts }

/-- The maxTemp/minRain/maxWind/rainTiming/timeBasedAnalysis result of
`analyzeForecasts`.  `maxTemp`/`maxWind` start at JS `-Infinity` (`⊥`). -/
structure Conditions where
  maxTemp : WithBot ℤ
  minRain : ℤ
  maxWind : WithBot ℤ
  rainTiming : RainTiming
  timeBasedAnalysis : TimeBasedAnalysis
  deriving DecidableEq

/-- `WeatherAnalyzer.analyzeForecasts`: the three running maxima of the single
source loop are written as three independent folds. -/
def analyzeForecasts (forecasts : List Forecast) : Conditions :=
  { maxTemp := forecasts.foldl (fun acc f => max acc ↑(jround f.main.temp)) ⊥
    minRain := jround (forecasts.foldl (fun acc f => max acc (calculateRainChance f)) 0)
    maxWind := forecasts.foldl (fun acc f => max acc ↑(jround (f.wind.speed * 2.237))) ⊥
    rainTiming := analyzeRainTiming forecasts
    timeBasedAnalysis := analyzeTimeBasedConditions forecasts }

/-- JS `x >= q` where `x` may be `-Infinity` (which is never `≥` a number). -/
def numGE (x : WithBot ℤ) (q : ℚ) : Bool :=
  decide ((q : WithBot ℚ) ≤ WithBot.map (fun i : ℤ => (i : ℚ)) x)

/-- JS `x < q` where `x` may be `-Infinity` (which is `<` every number). -/
def numLT (x : WithBot ℤ) (q : ℚ) : Bool :=
  decide (WithBot.map (fun i : ℤ => (i : ℚ)) x < (q : WithBot ℚ))

/-- JS `i >= q` for a plain integer value. -/
def intGE (i : ℤ) (q : ℚ) : Bool := decide (q ≤ (i : ℚ))

/-- JS `i < q` for a plain integer value. -/
def intLT (i : ℤ) (q : ℚ) : Bool := decide ((i : ℚ) < q)

/-- JS template-string rendering of a possibly `-Infinity` value. -/
def showWB : WithBot ℤ → String
  | none => "-Infinity"
  | some i => toString i

/-- One entry of `periodRecommendations` in `generateTimeBasedRecommendations`. -/
structure PeriodRec where
  period : String
  topOff : Bool
  doorsOff : Bool
  temp : ℤ
  rainChance : ℤ
  windSpeed : ℤ
  startTime : String
  endTime : String
  deriving DecidableEq

/-- The per-key `periodRecommendations` map (keys with no data are `none`). -/
structure PeriodRecs where
  morning : Option PeriodRec
  afternoon : Option PeriodRec
  evening : Option PeriodRec
  deriving DecidableEq

/-- `validPeriods`: the present entries in Morning→Afternoon→Evening order. -/
def validPeriodsOf (pr : PeriodRecs) : List PeriodRec :=
  [pr.morning, pr.afternoon, pr.evening].filterMap id

/-- The per-segment recommendation record built in
`generateTimeBasedRecommendations` from the analysis of one segment. -/
def periodRecOf (settings : Settings) (p : SegmentAnalysis) : PeriodRec :=
  { period := p.name
    topOff := intGE p.avgTemp settings.tempThresholdTopOff
      && intLT p.maxRainChance settings.rainChanceThreshold
    doorsOff := intGE p.avgTemp settings.tempThresholdDoorsOff
      && intLT p.maxRainChance settings.rainChanceThreshold
      && intLT p.maxWind settings.windSpeedThreshold
    temp := p.avgTemp
    rainChance := p.maxRainChance
    windSpeed := p.maxWind
    startTime := p.startTime
    endTime := p.endTime }

/-- The result of `analyzeWeatherPatterns`. -/
structure Patterns where
  consistentGoodWeather : Bool
  allTopOff : Bool
  allDoorsOff : Bool
  variableConditions : Bool
  deriving DecidableEq

/-- `WeatherAnalyzer.analyzeWeatherPatterns`. -/
def analyzeWeatherPatterns (validPeriods : List PeriodRec) : Patterns :=
  let topOffCount := (validPeriods.filter (·.topOff)).length
  let doorsOffCount := (validPeriods.filter (·.doorsOff)).length
  { consistentGoodWeather :=
      decide (topOffCount = validPeriods.length) || decide (topOffCount = 0)
    allTopOff := decide (topOffCount = validPeriods.length)
    allDoorsOff := decide (doorsOffCount = validPeriods.length)
    variableConditions :=
      decide (0 < topOffCount) && decide (topOffCount < validPeriods.length) }

/-- `WeatherAnalyzer.getConfigurationString`. -/
def getConfigurationString (topOff doorsOff : Bool) : String :=
  if topOff && doorsOff then "both-off"
  else if topOff && !doorsOff then "top-off"
  else "both-on"

/-- One group of consecutive same-configuration periods. -/
structure Group where
  config : String
  periods : List PeriodRec
  startTime : String
  endTime : String
  topOff : Bool
  doorsOff : Bool
  deriving DecidableEq

/-- A fresh group started at one period. -/
def newGroup (p : PeriodRec) : Group :=
  { config := getConfigurationString p.topOff p.doorsOff
    periods := [p]
    startTime := p.startTime
    endTime := p.endTime
    topOff := p.topOff
    doorsOff := p.doorsOff }

/-- Continuation of the current group with one more period. -/
def extendGroup (g : Group) (p : PeriodRec) : Group :=
  { g with periods := g.periods ++ [p], endTime := p.endTime }

/-- The grouping loop of `generateTimeSpecificRecommendations`. -/
def buildGroupsAux : List PeriodRec → Option Group → List Group → List Group
  | [], none, acc => acc
  | [], some g, acc => acc ++ [g]
  | p :: rest, cur, acc =>
    match cur with
    | none => buildGroupsAux rest (some (newGroup p)) acc
    | some g =>
      if g.config = getConfigurationString p.topOff p.doorsOff then
        buildGroupsAux rest (some (extendGroup g p)) acc
      else
        buildGroupsAux rest (some (newGroup p)) (acc ++ [g])

/-- Maximal runs of consecutive same-configuration valid periods. -/
def buildGroups (validPeriods : List PeriodRec) : List Group :=
  buildGroupsAux validPeriods none []

/-- `WeatherAnalyzer.getTimePhrase`. -/
def getTimePhrase (periods : List PeriodRec) : String :=
  match periods with
  | [p] =>
    let per := lowerStr p.period
    if per = "morning" then "This morning"
    else if per = "afternoon" then "This afternoon"
    else if per = "evening" then "This evening"
    else per
  | [p, q] => lowerStr p.period ++ " and " ++ lowerStr q.period
  | _ => "all day"

/-- `WeatherAnalyzer.getRecommendationReason`: clauses for the factors that
fail versus the thresholds, from the worst case over the periods of the group
(JS spread `Math.max` of an empty list is `-Infinity`, hence `WithBot`). -/
def getRecommendationReason (periods : List PeriodRec) (settings : Settings) : String :=
  let maxTemp : WithBot ℤ := (periods.map (·.temp)).maximum
  let maxRain : WithBot ℤ := (periods.map (·.rainChance)).maximum
  let maxWind : WithBot ℤ := (periods.map (·.windSpeed)).maximum
  let reasons : List String :=
    (if numLT maxTemp settings.tempThresholdTopOff then
        ["temperature only reaching " ++ showWB maxTemp ++ "°F"] else [])
    ++ (if numGE maxRain settings.rainChanceThreshold then
        [showWB maxRain ++ "% chance of rain"] else [])
    ++ (if numGE maxWind settings.windSpeedThreshold then
        ["winds up to " ++ showWB maxWind ++ " mph"] else [])
  if 0 < reasons.length then " (" ++ String.intercalate ", " reasons ++ ")" else ""

/-- `WeatherAnalyzer.getTemperatureRange` (the `[]` case is JS
`Math.min()`/`Math.max()` on an empty spread; it is unreachable here). -/
def getTemperatureRange (validPeriods : List PeriodRec) : String :=
  match validPeriods.map (·.temp) with
  | [] => "Infinity°F - -Infinity°F"
  | t :: ts =>
    let mn := ts.foldl min t
    let mx := ts.foldl max t
    if mn = mx then toString mn ++ "°F"
    else toString mn ++ "°F - " ++ toString mx ++ "°F"

/-- The one sentence pushed for a group in `generateTimeSpecificRecommendations`. -/
def sentenceForGroup (settings : Settings) (g : Group) : String :=
  let timePhrase := getTimePhrase g.periods
  let reason := getRecommendationReason g.periods settings
  if g.topOff && g.doorsOff then
    if timePhrase = "all day" then
      "Perfect weather all day! Both top and doors off recommended" ++ reason
    else
      timePhrase ++ ": Perfect for both top and doors off" ++ reason
  else if g.topOff && !g.doorsOff then
    if timePhrase = "all day" then
      "Good day for top off, but keep doors on all day" ++ reason
    else
      timePhrase ++ ": Take the top off, but keep doors on" ++ reason
  else
    if timePhrase = "all day" then
      "Keep both top and doors on today" ++ reason
    else
      timePhrase ++ ": Keep top and doors on" ++ reason

/-- Whether two chronologically adjacent groups differ in topOff/doorsOff. -/
def hasChangesB (groups : List Group) : Bool :=
  (groups.zip groups.tail).any fun pg =>
    (pg.1.topOff != pg.2.topOff) || (pg.1.doorsOff != pg.2.doorsOff)

/-- The transition pro-tip appended after the per-group sentences. -/
def proTip : String :=
  "💡 Pro tip: Consider your plans and comfort when making changes throughout the day"

/-- Per-group sentences plus the optional transition tip — the recommendation
list just before the final temperature-range splice. -/
def preSpliceRecs (validPeriods : List PeriodRec) (settings : Settings) : List String :=
  let groups := buildGroups validPeriods
  let recommendations := groups.map (sentenceForGroup settings)
  if 1 < groups.length ∧ hasChangesB groups then recommendations ++ [proTip]
  else recommendations

/-- First-occurrence substring replacement, as JS `String#replace` with a
string pattern. -/
def replaceFirstChars (pat rep : List Char) : List Char → List Char
  | [] => []
  | c :: rest =>
    if pat.isPrefixOf (c :: rest) then rep ++ (c :: rest).drop pat.length
    else c :: replaceFirstChars pat rep rest

/-- JS `s.replace(pat, rep)` for plain-string `pat` (first occurrence only). -/
def replaceFirstStr (s pat rep : String) : String :=
  String.mk (replaceFirstChars pat.data rep.data s.data)

/-- The final splice that rewrites the first recommendation sentence. -/
def spliceTempRange (validPeriods : List PeriodRec) (recs : List String) : List String :=
  match recs with
  | [] => []
  | r :: rest =>
    replaceFirstStr r "all day" ("all day (" ++ getTemperatureRange validPeriods ++ ")") :: rest

/-- `WeatherAnalyzer.generateTimeSpecificRecommendations`. -/
def generateTimeSpecificRecommendations (validPeriods : List PeriodRec) (settings : Settings) :
    List String :=
  if validPeriods.length = 0 then
    ["No forecast data available for specific time recommendations"]
  else
    let recs := preSpliceRecs validPeriods settings
    if recs.length = 1 ∧ 1 < validPeriods.length then spliceTempRange validPeriods recs
    else recs

/-- `WeatherAnalyzer.generateIntelligentRecommendations`. -/
def generateIntelligentRecommendations (pr : PeriodRecs) (settings : Settings) : List String :=
  let validPeriods := validPeriodsOf pr
  if validPeriods.length = 0 then ["No detailed forecast available for today"]
  else
    let patterns := analyzeWeatherPatterns validPeriods
    if patterns.consistentGoodWeather then
      if patterns.allDoorsOff then
        ["Perfect weather all day! Keep both top and doors off."]
      else if patterns.allTopOff then
        ["Great weather for the top off all day, but keep doors on due to wind or temperature."]
      else
        ["Weather conditions suggest keeping top and doors on today."]
    else
      generateTimeSpecificRecommendations validPeriods settings

/-- The periods/recommendations result of `generateTimeBasedRecommendations`. -/
structure TimeBasedRecommendations where
  periods : PeriodRecs
  recommendations : List String
  deriving DecidableEq

/-- `WeatherAnalyzer.generateTimeBasedRecommendations` (its `!timeBasedAnalysis`
guard is dead here: the analysis record always exists). -/
def generateTimeBasedRecommendations (tba : TimeBasedAnalysis) (settings : Settings) :
    TimeBasedRecommendations :=
  let pr : PeriodRecs :=
    { morning := tba.morning.map (periodRecOf settings)
      afternoon := tba.afternoon.map (periodRecOf settings)
      evening := tba.evening.map (periodRecOf settings) }
  { periods := pr, recommendations := generateIntelligentRecommendations pr settings }

/-- The topOff/doorsOff/timeBasedRecommendations result of
`generateRecommendations`. -/
structure Recommendations where
  topOff : Bool
  doorsOff : Bool
  timeBasedRecommendations : TimeBasedRecommendations
  deriving DecidableEq

/-- `WeatherAnalyzer.generateRecommendations`. -/
def generateRecommendations (conditions : Conditions) (settings : Settings) : Recommendations :=
  { topOff := numGE conditions.maxTemp settings.tempThresholdTopOff
      && intLT conditions.minRain settings.rainChanceThreshold
    doorsOff := numGE conditions.maxTemp settings.tempThresholdDoorsOff
      && intLT conditions.minRain settings.rainChanceThreshold
      && numLT conditions.maxWind settings.windSpeedThreshold
    timeBasedRecommendations :=
      generateTimeBasedRecommendations conditions.timeBasedAnalysis settings }

/-- The object returned by a successful `evaluateConditions` call
(the spread of recommendations and conditions plus cityName and lastUpdated). -/
structure AnalysisResult where
  topOff : Bool
  doorsOff : Bool
  timeBasedRecommendations : TimeBasedRecommendations
  maxTemp : WithBot ℤ
  minRain : ℤ
  maxWind : WithBot ℤ
  rainTiming : RainTiming
  timeBasedAnalysis : TimeBasedAnalysis
  cityName : String
  lastUpdated : ℤ
  deriving DecidableEq

/-- `weatherData.cacheTimestamp || Date.now()` (`0` is falsy in JS). -/
def jsOrTimestamp (cacheTimestamp : Option ℤ) (nowMs : ℤ) : ℤ :=
  match cacheTimestamp with
  | some t => if t = 0 then nowMs else t
  | none => nowMs

/-- `WeatherAnalyzer.evaluateConditions`: the one `throw` becomes `Except.error`. -/
def evaluateConditions (nowMs : ℤ) (weatherData : WeatherData) (settings : Settings) :
    Except String AnalysisResult :=
  let cityName := match weatherData.city with
    | some c => c.name
    | none => "Unknown Location"
  let lastUpdated := jsOrTimestamp weatherData.cacheTimestamp nowMs
  let todayForecasts := getTodayForecasts nowMs weatherData
  if todayForecasts.length = 0 then
    Except.error "No weather forecast data available for today"
  else
    let conditions := analyzeForecasts todayForecasts
    let recommendations := generateRecommendations conditions settings
    Except.ok
      { topOff := recommendations.topOff
        doorsOff := recommendations.doorsOff
        timeBasedRecommendations := recommendations.timeBasedRecommendations
        maxTemp := conditions.maxTemp
        minRain := conditions.minRain
        maxWind := conditions.maxWind
        rainTiming := conditions.rainTiming
        timeBasedAnalysis := conditions.timeBasedAnalysis
        cityName := cityName
        lastUpdated := lastUpdated }

/-! Specification-side definitions used to state the claims, and concrete
data used by witnesses and counterexamples. -/

/-- The `forecasts` list carried by an open period (`[]` when none is open). -/
def curForecasts : Option RainPeriod → List RainSample
  | none => []
  | some p => p.forecasts

/-- Specification-side: the maximal runs of consecutive points with
significant (≥ 10%) rain chance, in input order. -/
def qualRuns : List Forecast → List (List Forecast)
  | [] => []
  | f :: rest =>
    if isRainSignificant f then
      (f :: rest.takeWhile isRainSignificant) :: qualRuns (rest.dropWhile isRainSignificant)
    else
      qualRuns rest
termination_by l => l.length
decreasing_by
  · simp only [List.length_cons]
    exact Nat.lt_succ_of_le ((List.dropWhile_sublist _).length_le)
  · simp

/-- The rain period the segmenter builds out of one maximal run. -/
def periodOfRun (tz : ℤ) : List Forecast → RainPeriod
  | [] => ⟨"", 0, "", 0, 0, []⟩
  | f :: rest => rest.foldl (extendPeriod tz) (newPeriod tz f)

/-- Specification-side: number of maximal runs of equal consecutive values,
continuing from a run whose value is `prev`. -/
def runCountAux : String → List String → ℕ
  | _, [] => 0
  | prev, x :: rest => (if x = prev then 0 else 1) + runCountAux x rest

/-- Specification-side: number of maximal runs of equal consecutive values. -/
def runCount : List String → ℕ
  | [] => 0
  | x :: rest => 1 + runCountAux x rest

/-- A forecast point with the given timestamp, temperature, wind speed and
precipitation probability (no weather entries). -/
def mkPt (dtv : ℤ) (t : ℚ) (w : ℚ) (p : Option ℚ) : Forecast :=
  { dt := dtv, main := ⟨t⟩, wind := ⟨w⟩, weather := [], pop := p }

/-- The default thresholds of the constants module. -/
def exSettings : Settings := ⟨60, 65, 10, 15⟩

/-- Concrete conditions with a 15% peak rain chance. -/
def c1Cond : Conditions :=
  { maxTemp := ((80 : ℤ) : WithBot ℤ)
    minRain := 15
    maxWind := ((5 : ℤ) : WithBot ℤ)
    rainTiming := analyzeRainTiming []
    timeBasedAnalysis := analyzeTimeBasedConditions [] }

/-- Two dry points: rounded temperatures 70 and -3, rain chances 12.3 and 0. -/
def c2Pts : List Forecast :=
  [mkPt 0 69.5 2 (some 0.123), mkPt 10800 (-3.2) 9 (some 0)]

/-- A feed with an empty point list. -/
def emptyFeed : WeatherData := { city := some ⟨"Nowhere", some 0⟩, cacheTimestamp := none, list := [] }

/-- A feed whose two points both lie two days past the day window of `now = 0`. -/
def lateFeed : WeatherData :=
  { city := some ⟨"Lateville", some 0⟩
    cacheTimestamp := some 5
    list := [mkPt 200000 55 2 (some 0), mkPt 210800 58 2 (some 0)] }

/-- Already-enriched points: one morning point at 70°F and one afternoon point
at 62°F, dry and calm (location at UTC). -/
def c8Feed : List Forecast :=
  [ { mkPt 28800 70 0 (some 0) with tzOffsetMs := some 0 }
  , { mkPt 46800 62 0 (some 0) with tzOffsetMs := some 0 } ]

/-- The time-based recommendations computed from `c8Feed` under the default
thresholds. -/
def c8TBR : TimeBasedRecommendations :=
  generateTimeBasedRecommendations (analyzeTimeBasedConditions c8Feed) exSettings

/-- Three valid segments, all top-off-but-not-doors-off (windy), average
temperatures 60/70/65°F. -/
def c9Valid : List PeriodRec :=
  [ ⟨"Morning", true, false, 60, 0, 20, "6 AM", "11 AM"⟩
  , ⟨"Afternoon", true, false, 70, 0, 20, "12 PM", "5 PM"⟩
  , ⟨"Evening", true, false, 65, 0, 20, "6 PM", "9 PM"⟩ ]

/-- Two valid segments whose topOff flags differ. -/
def c8Valid : List PeriodRec :=
  [ ⟨"Morning", true, true, 70, 0, 0, "8 AM", "8 AM"⟩
  , ⟨"Afternoon", false, false, 55, 0, 0, "1 PM", "1 PM"⟩ ]

/-! Helper lemmas. -/

lemma foldl_max_withBot {α : Type*} [LinearOrder α] (l : List α) :
    ∀ acc : WithBot α, l.foldl (fun a x => max a ↑x) acc = max acc l.maximum := by
  induction l with
  | nil =>
    intro acc
    simp only [List.foldl_nil, List.maximum_nil]
    exact (max_eq_left bot_le).symm
  | cons x xs ih =>
    intro acc
    rw [List.foldl_cons, ih, List.maximum_cons, max_assoc]

lemma coe_foldl_max {α : Type*} [LinearOrder α] (l : List α) :
    ∀ a : α, ((l.foldl max a : α) : WithBot α) = max (a : WithBot α) l.maximum := by
  induction l with
  | nil =>
    intro a
    simp only [List.foldl_nil, List.maximum_nil]
    exact (max_eq_left bot_le).symm
  | cons x xs ih =>
    intro a
    rw [List.foldl_cons, ih (max a x), WithBot.coe_max, List.maximum_cons, max_assoc]

lemma rainPeriodsAux_join (tz : ℤ) : ∀ (l : List Forecast) (cur : Option RainPeriod)
    (acc : List RainPeriod),
    ((rainPeriodsAux tz l cur acc).map RainPeriod.forecasts).flatten
      = (acc.map RainPeriod.forecasts).flatten ++ curForecasts cur
        ++ (l.filter isRainSignificant).map (sampleOf tz) := by
  intro l
  induction l with
  | nil =>
    intro cur acc
    cases cur with
    | none => simp [rainPeriodsAux, curForecasts]
    | some p => simp [rainPeriodsAux, curForecasts]
  | cons f rest ih =>
    intro cur acc
    by_cases h : isRainSignificant f
    · cases cur with
      | none =>
        rw [show rainPeriodsAux tz (f :: rest) none acc
            = rainPeriodsAux tz rest (some (newPeriod tz f)) acc from by
          simp [rainPeriodsAux, h]]
        rw [ih]
        simp [curForecasts, newPeriod, List.filter_cons, h]
      | some p =>
        rw [show rainPeriodsAux tz (f :: rest) (some p) acc
            = rainPeriodsAux tz rest (some (extendPeriod tz p f)) acc from by
          simp [rainPeriodsAux, h]]
        rw [ih]
        simp [curForecasts, extendPeriod, List.filter_cons, h]
    · cases cur with
      | none =>
        rw [show rainPeriodsAux tz (f :: rest) none acc
            = rainPeriodsAux tz rest none acc from by simp [rainPeriodsAux, h]]
        rw [ih]
        simp [curForecasts, List.filter_cons, h]
      | some p =>
        rw [show rainPeriodsAux tz (f :: rest) (some p) acc
            = rainPeriodsAux tz rest none (acc ++ [p]) from by simp [rainPeriodsAux, h]]
        rw [ih]
        simp [curForecasts, List.filter_cons, h]

lemma rainPeriodsAux_some (tz : ℤ) : ∀ (l : List Forecast) (p : RainPeriod)
    (acc : List RainPeriod),
    rainPeriodsAux tz l (some p) acc
      = rainPeriodsAux tz (l.dropWhile isRainSignificant) none
          (acc ++ [(l.takeWhile isRainSignificant).foldl (extendPeriod tz) p]) := by
  intro l
  induction l with
  | nil => intro p acc; simp [rainPeriodsAux]
  | cons f rest ih =>
    intro p acc
    by_cases h : isRainSignificant f
    · rw [show rainPeriodsAux tz (f :: rest) (some p) acc
          = rainPeriodsAux tz rest (some (extendPeriod tz p f)) acc from by
        simp [rainPeriodsAux, h]]
      rw [ih]
      simp [List.dropWhile_cons, List.takeWhile_cons, h]
    · rw [show rainPeriodsAux tz (f :: rest) (some p) acc
          = rainPeriodsAux tz rest none (acc ++ [p]) from by simp [rainPeriodsAux, h]]
      rw [show (f :: rest).dropWhile isRainSignificant = f :: rest from by
        simp [List.dropWhile_cons, h]]
      rw [show (f :: rest).takeWhile isRainSignificant = [] from by
        simp [List.takeWhile_cons, h]]
      simp [rainPeriodsAux, h]

lemma rainPeriodsAux_none_fuel (tz : ℤ) : ∀ (n : ℕ) (l : List Forecast), l.length ≤ n →
    ∀ acc, rainPeriodsAux tz l none acc = acc ++ (qualRuns l).map (periodOfRun tz) := by
  intro n
  induction n with
  | zero =>
    intro l hl acc
    have hnil : l = [] := List.length_eq_zero.mp (Nat.le_zero.mp hl)
    subst hnil
    simp [rainPeriodsAux, qualRuns]
  | succ n ih =>
    intro l hl acc
    cases l with
    | nil => simp [rainPeriodsAux, qualRuns]
    | cons f rest =>
      have hr : rest.length ≤ n := by
        simp only [List.length_cons] at hl
        omega
      by_cases h : isRainSignificant f
      · rw [show rainPeriodsAux tz (f :: rest) none acc
            = rainPeriodsAux tz rest (some (newPeriod tz f)) acc from by
          simp [rainPeriodsAux, h]]
        rw [rainPeriodsAux_some]
        rw [ih (rest.dropWhile isRainSignificant)
          (le_trans (List.dropWhile_sublist _).length_le hr)]
        rw [show qualRuns (f :: rest)
            = (f :: rest.takeWhile isRainSignificant)
              :: qualRuns (rest.dropWhile isRainSignificant) from by
          rw [qualRuns]; simp [h]]
        simp [periodOfRun]
      · rw [show rainPeriodsAux tz (f :: rest) none acc
            = rainPeriodsAux tz rest none acc from by simp [rainPeriodsAux, h]]
        rw [ih rest hr]
        rw [show qualRuns (f :: rest) = qualRuns rest from by rw [qualRuns]; simp [h]]

lemma rainPeriodsAux_none (tz : ℤ) (l : List Forecast) (acc : List RainPeriod) :
    rainPeriodsAux tz l none acc = acc ++ (qualRuns l).map (periodOfRun tz) :=
  rainPeriodsAux_none_fuel tz l.length l le_rfl acc

lemma filter_takeWhile_dropWhile {α : Type*} (p : α → Bool) : ∀ l : List α,
    l.filter p = l.takeWhile p ++ (l.dropWhile p).filter p := by
  intro l
  induction l with
  | nil => simp
  | cons x xs ih =>
    by_cases h : p x
    · simp [List.filter_cons, List.takeWhile_cons, List.dropWhile_cons, h, ih]
    · simp only [List.takeWhile_cons, List.dropWhile_cons, h]
      simp

lemma qualRuns_join_fuel : ∀ (n : ℕ) (l : List Forecast), l.length ≤ n →
    (qualRuns l).flatten = l.filter isRainSignificant := by
  intro n
  induction n with
  | zero =>
    intro l hl
    have hnil : l = [] := List.length_eq_zero.mp (Nat.le_zero.mp hl)
    subst hnil
    simp [qualRuns]
  | succ n ih =>
    intro l hl
    cases l with
    | nil => simp [qualRuns]
    | cons f rest =>
      have hr : rest.length ≤ n := by
        simp only [List.length_cons] at hl
        omega
      by_cases h : isRainSignificant f
      · rw [show qualRuns (f :: rest)
            = (f :: rest.takeWhile isRainSignificant)
              :: qualRuns (rest.dropWhile isRainSignificant) from by
          rw [qualRuns]; simp [h]]
        rw [List.flatten]
        rw [ih _ (le_trans (List.dropWhile_sublist _).length_le hr)]
        rw [List.filter_cons]
        simp only [h, if_true]
        rw [filter_takeWhile_dropWhile isRainSignificant rest]
        simp
      · rw [show qualRuns (f :: rest) = qualRuns rest from by rw [qualRuns]; simp [h]]
        rw [ih rest hr, List.filter_cons]
        simp [h]

lemma qualRuns_join (l : List Forecast) :
    (qualRuns l).flatten = l.filter isRainSignificant :=
  qualRuns_join_fuel l.length l le_rfl

lemma qualRuns_eq_nil_fuel : ∀ (n : ℕ) (l : List Forecast), l.length ≤ n →
    (qualRuns l = [] ↔ ∀ f ∈ l, isRainSignificant f = false) := by
  intro n
  induction n with
  | zero =>
    intro l hl
    have hnil : l = [] := List.length_eq_zero.mp (Nat.le_zero.mp hl)
    subst hnil
    simp [qualRuns]
  | succ n ih =>
    intro l hl
    cases l with
    | nil => simp [qualRuns]
    | cons f rest =>
      have hr : rest.length ≤ n := by
        simp only [List.length_cons] at hl
        omega
      by_cases h : isRainSignificant f
      · rw [show qualRuns (f :: rest)
            = (f :: rest.takeWhile isRainSignificant)
              :: qualRuns (rest.dropWhile isRainSignificant) from by
          rw [qualRuns]; simp [h]]
        simp [h]
      · rw [show qualRuns (f :: rest) = qualRuns rest from by rw [qualRuns]; simp [h]]
        have hf : isRainSignificant f = false := by simpa using h
        rw [ih rest hr]
        simp [hf]

lemma qualRuns_eq_nil (l : List Forecast) :
    qualRuns l = [] ↔ ∀ f ∈ l, isRainSignificant f = false :=
  qualRuns_eq_nil_fuel l.length l le_rfl

lemma length_filter_lt {α : Type*} (p : α → Bool) : ∀ (l : List α) (x : α), x ∈ l →
    p x = false → (l.filter p).length < l.length := by
  intro l
  induction l with
  | nil => intro x hx; cases hx
  | cons a t ih =>
    intro x hx hpx
    rcases List.mem_cons.mp hx with rfl | hxt
    · simp only [List.filter_cons, hpx, if_false, List.length_cons]
      exact Nat.lt_succ_of_le (List.length_filter_le p t)
    · by_cases ha : p a
      · simpa [List.filter_cons, ha] using ih x hxt hpx
      · simp only [List.filter_cons, ha, if_false, List.length_cons]
        exact Nat.lt_succ_of_lt (ih x hxt hpx)

lemma buildGroupsAux_length_some : ∀ (l : List PeriodRec) (g : Group) (acc : List Group),
    (buildGroupsAux l (some g) acc).length
      = acc.length + 1
        + runCountAux g.config (l.map fun p => getConfigurationString p.topOff p.doorsOff) := by
  intro l
  induction l with
  | nil => intro g acc; simp [buildGroupsAux, runCountAux]
  | cons p rest ih =>
    intro g acc
    by_cases hc : g.config = getConfigurationString p.topOff p.doorsOff
    · rw [show buildGroupsAux (p :: rest) (some g) acc
          = buildGroupsAux rest (some (extendGroup g p)) acc from by
        simp [buildGroupsAux, hc]]
      rw [ih (extendGroup g p) acc]
      simp [extendGroup, runCountAux, hc]
    · rw [show buildGroupsAux (p :: rest) (some g) acc
          = buildGroupsAux rest (some (newGroup p)) (acc ++ [g]) from by
        simp [buildGroupsAux, hc]]
      rw [ih (newGroup p) (acc ++ [g])]
      have hne : ¬ (getConfigurationString p.topOff p.doorsOff = g.config) :=
        fun e => hc e.symm
      simp [newGroup, runCountAux, hne]
      omega

lemma buildGroups_length (validPeriods : List PeriodRec) :
    (buildGroups validPeriods).length
      = runCount (validPeriods.map fun p => getConfigurationString p.topOff p.doorsOff) := by
  cases validPeriods with
  | nil => simp [buildGroups, buildGroupsAux, runCount]
  | cons p rest =>
    rw [show buildGroups (p :: rest) = buildGroupsAux rest (some (newGroup p)) [] from by
      simp [buildGroups, buildGroupsAux]]
    rw [buildGroupsAux_length_some]
    simp [newGroup, runCount]

lemma foldl_max_withBot_comp {α β : Type*} [LinearOrder β] (g : α → β) (l : List α) :
    ∀ acc : WithBot β, l.foldl (fun a x => max a ↑(g x)) acc = max acc (l.map g).maximum := by
  induction l with
  | nil =>
    intro acc
    simp only [List.foldl_nil, List.map_nil, List.maximum_nil]
    exact (max_eq_left bot_le).symm
  | cons x xs ih =>
    intro acc
    rw [List.foldl_cons, ih, List.map_cons, List.maximum_cons, max_assoc]

lemma coe_foldl_max_comp {α : Type*} (g : α → ℚ) (l : List α) :
    ∀ a : ℚ, ((l.foldl (fun acc f => max acc (g f)) a : ℚ) : WithBot ℚ)
      = max (a : WithBot ℚ) (l.map g).maximum := by
  induction l with
  | nil =>
    intro a
    simp only [List.foldl_nil, List.map_nil, List.maximum_nil]
    exact (max_eq_left bot_le).symm
  | cons x xs ih =>
    intro a
    rw [List.foldl_cons, ih (max a (g x)), WithBot.coe_max, List.map_cons, List.maximum_cons,
      max_assoc]

lemma getTodayForecasts_of_nil (nowMs : ℤ) (w : WeatherData) (h : w.list = []) :
    getTodayForecasts nowMs w = [] := by
  simp [getTodayForecasts, h]

lemma getTodayForecasts_ne_nil (nowMs : ℤ) (w : WeatherData) (h : w.list ≠ []) :
    getTodayForecasts nowMs w ≠ [] := by
  simp only [getTodayForecasts]
  intro hcontra
  rw [List.map_eq_nil_iff] at hcontra
  split at hcontra
  · rcases wl : w.list with _ | ⟨a, t⟩
    · exact h wl
    · rw [wl] at hcontra
      simp [List.take_succ_cons] at hcontra
  · next h' => exact h' (by rw [hcontra]; rfl)

/-! Claim theorems. -/

/-- Claim C1 — for every `DayConditions` value and every settings object the
day-level recommendation computes `topOff = (maxTemp ≥ tempThresholdTopOff ∧
minRain < rainChanceThreshold)` and `doorsOff = (maxTemp ≥
tempThresholdDoorsOff ∧ minRain < rainChanceThreshold ∧ maxWind <
windSpeedThreshold)`; in particular whenever `minRain ≥ rainChanceThreshold`
both flags are false regardless of temperature and wind. -/
theorem dayRecommendation_thresholds (c : Conditions) (s : Settings) :
    ((generateRecommendations c s).topOff = true ↔
      ((s.tempThresholdTopOff : WithBot ℚ) ≤ WithBot.map (fun i : ℤ => (i : ℚ)) c.maxTemp
        ∧ (c.minRain : ℚ) < s.rainChanceThreshold))
    ∧ ((generateRecommendations c s).doorsOff = true ↔
      ((s.tempThresholdDoorsOff : WithBot ℚ) ≤ WithBot.map (fun i : ℤ => (i : ℚ)) c.maxTemp
        ∧ (c.minRain : ℚ) < s.rainChanceThreshold
        ∧ WithBot.map (fun i : ℤ => (i : ℚ)) c.maxWind < (s.windSpeedThreshold : WithBot ℚ)))
    ∧ (s.rainChanceThreshold ≤ (c.minRain : ℚ) →
      (generateRecommendations c s).topOff = false
        ∧ (generateRecommendations c s).doorsOff = false) := by
  refine ⟨?_, ?_, ?_⟩
  · simp [generateRecommendations, numGE, intLT, Bool.and_eq_true, decide_eq_true_eq]
  · simp [generateRecommendations, numGE, intLT, numLT, Bool.and_eq_true, decide_eq_true_eq,
      and_assoc]
  · intro h
    have hlt : ¬ ((c.minRain : ℚ) < s.rainChanceThreshold) := not_lt.mpr h
    constructor <;> simp [generateRecommendations, intLT, hlt]

/-- Witness for C1: with a 15% peak rain chance against a 10% threshold, both
flags come out false even though temperature and wind are favourable. -/
theorem dayRecommendation_thresholds_witness :
    (generateRecommendations c1Cond exSettings).topOff = false
      ∧ (generateRecommendations c1Cond exSettings).doorsOff = false :=
  (dayRecommendation_thresholds c1Cond exSettings).2.2 (by decide)

/-- Claim C2 — on a non-empty window (witnessed by the rain-chance maximum
existing) the aggregate analyzer returns the maximum of the rounded
temperatures, the rounded maximum of the per-point rain chances, and the
maximum of the per-point `round(wind × 2.237)` values — maxima, not
averages.  The nonnegativity hypothesis reflects the 0–1 range of the feed
precipitation probabilities. -/
theorem analyzeForecasts_maxima (l : List Forecast) (q : ℚ)
    (hq : ∀ f ∈ l, 0 ≤ calculateRainChance f)
    (hmax : (l.map calculateRainChance).maximum = some q) :
    (analyzeForecasts l).maxTemp = (l.map fun f => jround f.main.temp).maximum
    ∧ (analyzeForecasts l).minRain = jround q
    ∧ (analyzeForecasts l).maxWind = (l.map fun f => jround (f.wind.speed * 2.237)).maximum := by
  refine ⟨?_, ?_, ?_⟩
  · simp only [analyzeForecasts]
    rw [foldl_max_withBot_comp]
    exact max_eq_right bot_le
  · simp only [analyzeForecasts]
    have hq0 : 0 ≤ q := by
      have hmem : q ∈ l.map calculateRainChance := List.maximum_mem hmax
      obtain ⟨f, hf, hfq⟩ := List.mem_map.mp hmem
      exact hfq ▸ hq f hf
    have e2 : ((l.foldl (fun acc f => max acc (calculateRainChance f)) 0 : ℚ) : WithBot ℚ)
        = ((q : ℚ) : WithBot ℚ) := by
      rw [coe_foldl_max_comp, hmax]
      rw [show ((q : ℚ) : WithBot ℚ) = (((0 : ℚ) : WithBot ℚ)) ⊔ (q : WithBot ℚ) from ?_]
      · rfl
      · rw [← WithBot.coe_max]
        rw [max_eq_right hq0]
    rw [WithBot.coe_inj.mp e2]
  · simp only [analyzeForecasts]
    rw [foldl_max_withBot_comp]
    exact max_eq_right bot_le

/-- Witness for C2 at two concrete dry points: rounded temperatures 70 and -3,
rain-chance maximum 12.3 (rounded to 12), winds 2 and 9 m/s. -/
theorem analyzeForecasts_maxima_witness :
    (analyzeForecasts c2Pts).maxTemp = (c2Pts.map fun f => jround f.main.temp).maximum
    ∧ (analyzeForecasts c2Pts).minRain = jround 12.3
    ∧ (analyzeForecasts c2Pts).maxWind
        = (c2Pts.map fun f => jround (f.wind.speed * 2.237)).maximum :=
  analyzeForecasts_maxima c2Pts 12.3 (by decide) (by decide)

/-- Claim C3 — the top-level analysis fails (with the no-forecast-data error)
exactly when the point list of the feed is empty: the selector fallback yields a
non-empty window for every non-empty feed, and then the analysis returns a
result. -/
theorem evaluateConditions_error_iff (nowMs : ℤ) (w : WeatherData) (s : Settings) :
    (evaluateConditions nowMs w s
        = Except.error "No weather forecast data available for today" ↔ w.list = [])
    ∧ (w.list ≠ [] → getTodayForecasts nowMs w ≠ [])
    ∧ (w.list ≠ [] → ∃ r, evaluateConditions nowMs w s = Except.ok r) := by
  have h3 : w.list ≠ [] → ∃ r, evaluateConditions nowMs w s = Except.ok r := by
    intro hne
    have hlen : ¬ (getTodayForecasts nowMs w).length = 0 := by
      simpa [List.length_eq_zero] using getTodayForecasts_ne_nil nowMs w hne
    simp only [evaluateConditions]
    rw [if_neg hlen]
    exact ⟨_, rfl⟩
  refine ⟨⟨?_, ?_⟩, getTodayForecasts_ne_nil nowMs w, h3⟩
  · intro herr
    by_contra hne
    obtain ⟨r, hr⟩ := h3 hne
    rw [herr] at hr
    exact Except.noConfusion hr
  · intro hnil
    have hempty : getTodayForecasts nowMs w = [] := getTodayForecasts_of_nil nowMs w hnil
    simp [evaluateConditions, hempty]

/-- Witness for C3: an empty feed produces exactly the error, and a non-empty
feed whose points all lie outside today still yields a non-empty window. -/
theorem evaluateConditions_error_iff_witness :
    evaluateConditions 0 emptyFeed exSettings
        = Except.error "No weather forecast data available for today"
      ∧ getTodayForecasts 0 lateFeed ≠ [] :=
  ⟨(evaluateConditions_error_iff 0 emptyFeed exSettings).1.mpr rfl,
   (evaluateConditions_error_iff 0 lateFeed exSettings).2.1 (by decide)⟩

/-- Claim C4 — the rain-chance rule: a numeric precipitation probability
always wins and yields `pop × 100`; otherwise codes in [200,232], [300,321]
and [500,531] yield 50 and anything else (including missing weather info)
yields 0. -/
theorem calculateRainChance_rule (f : Forecast) :
    (∀ p : ℚ, f.pop = some p → calculateRainChance f = p * 100)
    ∧ (f.pop = none → f.weather = [] → calculateRainChance f = 0)
    ∧ (∀ w rest, f.pop = none → f.weather = w :: rest →
        calculateRainChance f =
          if (200 ≤ w.id ∧ w.id ≤ 232) ∨ (300 ≤ w.id ∧ w.id ≤ 321)
              ∨ (500 ≤ w.id ∧ w.id ≤ 531) then 50 else 0) := by
  refine ⟨?_, ?_, ?_⟩
  · intro p hp
    simp [calculateRainChance, hp]
  · intro hp hw
    simp [calculateRainChance, hp, hw]
  · intro w rest hp hw
    simp [calculateRainChance, hp, hw, THUNDERSTORM_MIN, THUNDERSTORM_MAX, DRIZZLE_MIN,
      DRIZZLE_MAX, RAIN_MIN, RAIN_MAX]

/-- Witness for C4: probability 0.35 with clear-sky code 800 gives 35 — the
code is ignored because the probability is present. -/
theorem calculateRainChance_rule_witness :
    calculateRainChance
        { dt := 0, main := ⟨70⟩, wind := ⟨0⟩, weather := [⟨800⟩], pop := some 0.35,
          tzOffsetMs := none } = 0.35 * 100
      ∧ (0.35 : ℚ) * 100 = 35 :=
  ⟨(calculateRainChance_rule _).1 0.35 rfl, by decide⟩

/-- Claim C5 — round-trip of the segmenter: concatenating the `forecasts`
arrays of all returned rain periods, in order, is exactly the subsequence of
input points with rain chance ≥ 10%, each contributing its one
`(time, chance)` sample. -/
theorem rainPeriods_roundTrip (l : List Forecast) :
    ((analyzeRainTiming l).periods.map RainPeriod.forecasts).flatten
      = (l.filter isRainSignificant).map (sampleOf (tzOfList l)) := by
  simpa [analyzeRainTiming, curForecasts] using rainPeriodsAux_join (tzOfList l) l none []

/-- Claim C6 — the segmenter is deterministic (re-running on the same input
is literal re-evaluation of a pure function), its periods are exactly the
maximal runs of consecutive ≥ 10% points in input order (hence pairwise
non-overlapping, chronologically ordered, and each period closed by the first
sub-threshold point), and the period count equals the run count; the runs
flatten back to the qualifying subsequence. -/
theorem analyzeRainTiming_maximalRuns (l : List Forecast) :
    analyzeRainTiming l = analyzeRainTiming l
    ∧ (analyzeRainTiming l).periods = (qualRuns l).map (periodOfRun (tzOfList l))
    ∧ (analyzeRainTiming l).periods.length = (qualRuns l).length
    ∧ (qualRuns l).flatten = l.filter isRainSignificant := by
  have hper : (analyzeRainTiming l).periods = (qualRuns l).map (periodOfRun (tzOfList l)) := by
    simp [analyzeRainTiming, rainPeriodsAux_none]
  exact ⟨rfl, hper, by rw [hper, List.length_map], qualRuns_join l⟩

/-- Claim C7 — when no feed point falls in the day window, the selector
returns exactly the first 8 feed points (all of them if fewer), in order,
enriched with the resolved offset; the fallback is total and cannot throw. -/
theorem getTodayForecasts_fallback (nowMs : ℤ) (w : WeatherData)
    (h : ∀ f ∈ w.list,
      isToday (todayStartMs nowMs w) (getLocationTimezoneOffset w) f = false) :
    getTodayForecasts nowMs w
      = (w.list.take 8).map (enrich (getLocationTimezoneOffset w)) := by
  have hfil : w.list.filter
      (isToday (todayStartMs nowMs w) (getLocationTimezoneOffset w)) = [] :=
    List.filter_eq_nil_iff.mpr fun a ha => by simp [h a ha]
  simp [getTodayForecasts, hfil]

/-- Witness for C7: a feed starting two days from now falls back to its first
points, enriched. -/
theorem getTodayForecasts_fallback_witness :
    (∀ f ∈ lateFeed.list,
      isToday (todayStartMs 0 lateFeed) (getLocationTimezoneOffset lateFeed) f = false)
    ∧ getTodayForecasts 0 lateFeed
        = (lateFeed.list.take 8).map (enrich (getLocationTimezoneOffset lateFeed)) :=
  ⟨by decide, getTodayForecasts_fallback 0 lateFeed (by decide)⟩

/-- Claim C8 — counterexample.  From `c8Feed` (morning 70°F, afternoon 62°F,
dry and calm, default thresholds) the two valid segments get `doorsOff = true`
versus `doorsOff = false` — their topOff/doorsOff values differ — yet the
classifier reports a consistent day (`variableConditions = false`,
`consistentGoodWeather = true`) and emits the uniform-day sentence, because
classification counts only `topOff`.  The claim "whenever the per-segment
topOff/doorsOff values differ the classification is variable" is therefore
false as stated. -/
theorem c8_counterexample :
    (c8TBR.periods.morning.map (·.topOff) = some true)
    ∧ (c8TBR.periods.afternoon.map (·.topOff) = some true)
    ∧ (c8TBR.periods.morning.map (·.doorsOff) = some true)
    ∧ (c8TBR.periods.afternoon.map (·.doorsOff) = some false)
    ∧ (analyzeWeatherPatterns (validPeriodsOf c8TBR.periods)).variableConditions = false
    ∧ (analyzeWeatherPatterns (validPeriodsOf c8TBR.periods)).consistentGoodWeather = true
    ∧ c8TBR.recommendations
        = ["Great weather for the top off all day, but keep doors on due to wind or temperature."] := by
  decide

/-- Claim C8 — amended.  The classification is consistent exactly when the
topOff count is 0 or equals the number of valid segments; whenever the
per-segment **topOff** values differ the classification is variable; and the
number of groups (one recommendation sentence each) equals the number of
maximal runs of consecutive same-configuration valid segments. -/
theorem weatherPatterns_classification_amended (valid : List PeriodRec) :
    ((analyzeWeatherPatterns valid).consistentGoodWeather = true ↔
      ((valid.filter (·.topOff)).length = 0
        ∨ (valid.filter (·.topOff)).length = valid.length))
    ∧ ((∃ p ∈ valid, ∃ q ∈ valid, p.topOff ≠ q.topOff) →
        (analyzeWeatherPatterns valid).consistentGoodWeather = false
        ∧ (analyzeWeatherPatterns valid).variableConditions = true)
    ∧ (buildGroups valid).length
        = runCount (valid.map fun p => getConfigurationString p.topOff p.doorsOff) := by
  refine ⟨?_, ?_, buildGroups_length valid⟩
  · simp [analyzeWeatherPatterns, Bool.or_eq_true, decide_eq_true_eq, or_comm]
  · rintro ⟨p, hp, q, hq, hne⟩
    have hcases : (p.topOff = true ∧ q.topOff = false)
        ∨ (p.topOff = false ∧ q.topOff = true) := by
      cases hp' : p.topOff <;> cases hq' : q.topOff <;> simp_all
    have hex : ∃ t ∈ valid, PeriodRec.topOff t = true := by
      rcases hcases with ⟨h1, _⟩ | ⟨_, h2⟩
      exacts [⟨p, hp, h1⟩, ⟨q, hq, h2⟩]
    have hexf : ∃ t ∈ valid, PeriodRec.topOff t = false := by
      rcases hcases with ⟨_, h2⟩ | ⟨h1, _⟩
      exacts [⟨q, hq, h2⟩, ⟨p, hp, h1⟩]
    obtain ⟨t1, ht1, ht1t⟩ := hex
    obtain ⟨t2, ht2, ht2f⟩ := hexf
    have hpos : 0 < (valid.filter (·.topOff)).length :=
      List.length_pos.mpr (List.ne_nil_of_mem (List.mem_filter.mpr ⟨ht1, ht1t⟩))
    have hlt : (valid.filter (·.topOff)).length < valid.length :=
      length_filter_lt _ valid t2 ht2 ht2f
    constructor
    · simp only [analyzeWeatherPatterns, Bool.or_eq_false_iff, decide_eq_false_iff_not]
      omega
    · simp only [analyzeWeatherPatterns, Bool.and_eq_true, decide_eq_true_eq]
      omega

/-- Witness for C8 (amended) at two concrete segments with differing topOff:
the classification is variable. -/
theorem weatherPatterns_classification_amended_witness :
    (analyzeWeatherPatterns c8Valid).consistentGoodWeather = false
      ∧ (analyzeWeatherPatterns c8Valid).variableConditions = true :=
  (weatherPatterns_classification_amended c8Valid).2.1 (by decide)

/-- Claim C9 — counterexample.  On three uniform top-off-only segments
(average temperatures 60/70/65°F, windy) the generator produces one sentence
whose phrase "all day" is **kept** and followed by the parenthesized range
"(60°F - 70°F)"; replacing "all day" by the range — what the claim's "in
place of" states — would give a different sentence, so the claim is false as
stated. -/
theorem c9_counterexample :
    generateTimeSpecificRecommendations c9Valid exSettings
      = ["Good day for top off, but keep doors on all day (60°F - 70°F) (winds up to 20 mph)"]
    ∧ generateTimeSpecificRecommendations c9Valid exSettings
      ≠ ["Good day for top off, but keep doors on 60°F - 70°F (winds up to 20 mph)"]
    ∧ preSpliceRecs c9Valid exSettings
      = ["Good day for top off, but keep doors on all day (winds up to 20 mph)"]
    ∧ (preSpliceRecs c9Valid exSettings).length = 1
    ∧ 1 < c9Valid.length
    ∧ replaceFirstStr "Good day for top off, but keep doors on all day (winds up to 20 mph)"
        "all day" "60°F - 70°F"
      = "Good day for top off, but keep doors on 60°F - 70°F (winds up to 20 mph)" := by
  decide

/-- Claim C9 — amended.  Whenever the pre-splice recommendation list is
exactly one sentence and more than one valid segment exists, the final output
replaces the first occurrence of "all day" in that sentence by "all day"
followed by the parenthesized min–max average-segment-temperature range —
the range is kept after the phrase, not substituted for it — with the range
formatted as a single value when min = max and as a dashed span otherwise,
per `getTemperatureRange`. -/
theorem generateTimeSpecific_splice_amended (valid : List PeriodRec) (s : Settings) (r : String)
    (hr : preSpliceRecs valid s = [r]) (h2 : 1 < valid.length) :
    generateTimeSpecificRecommendations valid s
      = [replaceFirstStr r "all day" ("all day (" ++ getTemperatureRange valid ++ ")")] := by
  have hlen : ¬ valid.length = 0 := by omega
  simp [generateTimeSpecificRecommendations, hlen, hr, spliceTempRange, h2]

/-- Witness for C9 (amended) at the three-segment input of the
counterexample. -/
theorem generateTimeSpecific_splice_amended_witness :
    generateTimeSpecificRecommendations c9Valid exSettings
      = [replaceFirstStr "Good day for top off, but keep doors on all day (winds up to 20 mph)"
          "all day" ("all day (" ++ getTemperatureRange c9Valid ++ ")")] :=
  generateTimeSpecific_splice_amended c9Valid exSettings
    "Good day for top off, but keep doors on all day (winds up to 20 mph)" (by decide) (by decide)

/-- Claim C10 — `hasRain` holds iff the period list is non-empty, which holds
iff some input point has rain chance ≥ 10%; on empty input the segmenter
returns no periods, `hasRain = false` and the no-rain summary, without
throwing (it is a total function). -/
theorem analyzeRainTiming_hasRain_iff (l : List Forecast) :
    ((analyzeRainTiming l).hasRain = true ↔ (analyzeRainTiming l).periods ≠ [])
    ∧ ((analyzeRainTiming l).periods ≠ []
        ↔ ∃ f ∈ l, RAIN_THRESHOLD ≤ calculateRainChance f)
    ∧ (analyzeRainTiming ([] : List Forecast)).periods = []
    ∧ (analyzeRainTiming ([] : List Forecast)).hasRain = false
    ∧ (analyzeRainTiming ([] : List Forecast)).summary
        = "No significant rain expected today" := by
  have hper : (analyzeRainTiming l).periods = (qualRuns l).map (periodOfRun (tzOfList l)) := by
    simp [analyzeRainTiming, rainPeriodsAux_none]
  refine ⟨?_, ?_, by decide, by decide, by decide⟩
  · simp [analyzeRainTiming, decide_eq_true_eq, List.length_pos]
  · rw [hper]
    constructor
    · intro hne
      have hq : qualRuns l ≠ [] := fun hnil => hne (by simp [hnil])
      have h2 : ¬ ∀ f ∈ l, isRainSignificant f = false :=
        fun hall => hq ((qualRuns_eq_nil l).mpr hall)
      push_neg at h2
      obtain ⟨f, hf, hsig⟩ := h2
      refine ⟨f, hf, ?_⟩
      have htrue : isRainSignificant f = true := by simpa using hsig
      simpa [isRainSignificant, decide_eq_true_eq] using htrue
    · rintro ⟨f, hf, hchance⟩ hnil
      rw [List.map_eq_nil_iff] at hnil
      have := (qualRuns_eq_nil l).mp hnil f hf
      simp [isRainSignificant, hchance] at this

end WeatherWrangler
